import Mathlib

/-!
Shallow embedding of the FleetPro journey-lifecycle endpoints
(`src/app/api/journeys/{request,cancel,dropoff,route-change}/route.ts`,
`src/app/api/admin/journeys/assign/route.ts`, `src/app/api/data/route.ts`)
over the data model of `src/app/types/index.ts`.

Conventions of the embedding:
- JS numbers used as integer counters/measures are modelled as `Int`
  (no arithmetic beyond `+ 1`, `- 1`, `max 0` occurs on them);
- string-enum fields (`status`, `role`, route-change `type`) stay `String`;
- `undefined`/`null`-able fields are `Option`;
- the request body of each POST handler is passed as explicit arguments,
  where a missing/empty field is the empty string (resp. `Option.none`),
  matching the JS falsiness checks `if (!x)`;
- `Date.now()` / `new Date().toISOString()` are passed in as `nowMs : Nat`
  and `nowIso : String`;
- the persistence collaborator (`readData`/`writeData`) is external: the
  handler receives the stored `FleetData` and returns, along with the HTTP
  status and error message, the `FleetData` that is durably stored after the
  call: the written object graph when `writeData` is reached and succeeds
  (`writeOk = true`), and the untouched input otherwise.
-/

structure Location where
  lat : Int
  lng : Int
  address : String
deriving Repr, DecidableEq

structure DistanceMetrics where
  day : Int
  month : Int
  year : Int
deriving Repr, DecidableEq

/-- `User` of `types/index.ts`; the `User`/`Admin` split is by the `role`
string, so one structure covers `(User | Admin)[]`. -/
structure User where
  id : String
  email : String
  password : String
  name : String
  role : String
  isActive : Bool
  designation : String
  department : String
  currentLocation : Option Location
  carsUsed : List String
  totalDistance : DistanceMetrics
deriving Repr, DecidableEq

structure Driver where
  id : String
  email : String
  password : String
  name : String
  role : String
  isActive : Bool
  dob : String
  licenseNo : String
  licenseExpiry : String
  onLeave : Bool
  salary : Int
  totalLeave : Int
  remainingLeave : Int
  currentLocation : Location
  totalTravelledDistance : DistanceMetrics
deriving Repr, DecidableEq

structure Car where
  id : String
  model : String
  regNo : String
  drivers : List String
  users : List String
  status : String
  isClean : Bool
  needsServicing : Bool
  totalDistanceTravelled : DistanceMetrics
  currentLocation : Location
deriving Repr, DecidableEq

structure RouteChange where
  type : String
  timestamp : String
  waypoint : Option Location
  reason : Option String
deriving Repr, DecidableEq

structure Journey where
  userDesignation : Option String
  id : String
  carId : String
  driverId : String
  userId : String
  userName : String
  driverName : String
  carModel : String
  startLocation : Location
  endLocation : Location
  waypoints : List Location
  status : String
  startTime : String
  endTime : Option String
  distance : Int
  rating : Option Int
  routeChanges : List RouteChange
  estimatedDuration : Int
deriving Repr, DecidableEq

structure LeaveRequest where
  id : String
  driverId : String
  startDate : String
  endDate : String
  reason : String
  status : String
  submittedAt : String
deriving Repr, DecidableEq

structure SystemStats where
  totalUsers : Int
  totalDrivers : Int
  totalCars : Int
  activeJourneys : Int
  pendingRequests : Int
  availableCars : Int
  driversOnLeave : Int
  monthlyDistance : Int
deriving Repr, DecidableEq

structure FleetData where
  users : List User
  drivers : List Driver
  cars : List Car
  locations : List Location
  journeys : List Journey
  leaveRequests : List LeaveRequest
  systemStats : SystemStats
deriving Repr, DecidableEq

/-- Outcome of one handler call: HTTP status, the `error` field of the JSON
response body, and the `FleetData` durably stored once the handler returns. -/
structure ApiResult where
  status : Nat
  error : Option String
  persisted : FleetData
deriving Repr, DecidableEq

/-- `arr.findIndex(p)` followed by `if (idx !== -1) arr[idx] = f(arr[idx])`:
replaces the first element satisfying `p`, leaves the list unchanged when
none does. -/
def setFirst (p : α → Bool) (f : α → α) : List α → List α
  | [] => []
  | x :: xs => if p x then f x :: xs else x :: setFirst p f xs

/-- `POST /api/admin/journeys/assign` (`src/app/api/admin/journeys/assign/route.ts`). -/
def assignJourney (data : FleetData) (journeyId carId driverId : String)
    (writeOk : Bool) : ApiResult :=
  if journeyId = "" ∨ carId = "" ∨ driverId = "" then
    { status := 400, error := some ("Journey ID, Car ID, and Driver ID are required"),
      persisted := data }
  else
    match data.journeys.find? (fun j => j.id == journeyId) with
    | none => { status := 404, error := some ("Journey not found"), persisted := data }
    | some journey =>
      if journey.status ≠ "requested" then
        { status := 400, error := some ("Can only assign car and driver to requested journeys"),
          persisted := data }
      else
        match data.cars.find? (fun c => c.id == carId) with
        | none => { status := 404, error := some ("Car not found"), persisted := data }
        | some car =>
          if car.status ≠ "available" then
            { status := 400, error := some ("Car is not available"), persisted := data }
          else
            match data.drivers.find? (fun d => d.id == driverId) with
            | none => { status := 404, error := some ("Driver not found"), persisted := data }
            | some driver =>
              if driver.onLeave then
                { status := 400, error := some ("Driver is on leave"), persisted := data }
              else
                let cars' := setFirst (fun c => c.id == carId)
                  (fun c => { c with status := "in-use" }) data.cars
                let updatedJourney : Journey :=
                  { journey with
                      carId := carId, driverId := driverId,
                      driverName := driver.name, carModel := car.model,
                      status := "in-progress" }
                let journeys' := setFirst (fun j => j.id == journeyId)
                  (fun _ => updatedJourney) data.journeys
                let stats' :=
                  { data.systemStats with
                    pendingRequests :=
                      Int.ofNat (journeys'.filter (fun j => j.status == "requested")).length,
                    activeJourneys :=
                      Int.ofNat (journeys'.filter (fun j => j.status == "in-progress")).length,
                    availableCars :=
                      Int.ofNat (cars'.filter (fun c => c.status == "available")).length }
                let data' := { data with
                                 cars := cars', journeys := journeys',
                                 systemStats := stats' }
                if writeOk then { status := 200, error := none, persisted := data' }
                else { status := 500, error := some ("Failed to assign car and driver"),
                       persisted := data }

/-- `POST /api/journeys/request` (`src/app/api/journeys/request/route.ts`).
`(data.systemStats.pendingRequests || 0) + 1` is `pendingRequests + 1` here:
the field is always present, and `0 || 0` is `0`. -/
def journeyRequest (data : FleetData) (userId destination : String)
    (startLocation : Option Location) (nowMs : Nat) (nowIso : String)
    (writeOk : Bool) : ApiResult :=
  match startLocation with
  | none =>
    { status := 400, error := some ("User ID, destination, and start location are required"),
      persisted := data }
  | some startLoc =>
    if userId = "" ∨ destination = "" then
      { status := 400, error := some ("User ID, destination, and start location are required"),
        persisted := data }
    else
      match data.users.find? (fun u => u.id == userId) with
      | none => { status := 404, error := some ("User not found"), persisted := data }
      | some user =>
        match data.journeys.find? (fun j => j.userId == userId && j.status == "requested") with
        | some _ =>
          { status := 409, error := some ("You already have a pending journey request"),
            persisted := data }
        | none =>
          let newJourney : Journey :=
            { userDesignation := none,
              id := "journey-" ++ toString nowMs,
              carId := "", driverId := "",
              userId := userId, userName := user.name,
              driverName := "", carModel := "",
              startLocation := startLoc,
              endLocation := { lat := 0, lng := 0, address := destination },
              waypoints := [], status := "requested",
              startTime := nowIso, endTime := none,
              distance := 0, rating := none, routeChanges := [],
              estimatedDuration := 0 }
          let journeys' := data.journeys ++ [newJourney]
          let stats' := { data.systemStats with
                          pendingRequests := data.systemStats.pendingRequests + 1 }
          let data' := { data with journeys := journeys', systemStats := stats' }
          if writeOk then { status := 200, error := none, persisted := data' }
          else { status := 500, error := some ("Failed to create journey request"),
                 persisted := data }

/-- `POST /api/journeys/cancel` (`src/app/api/journeys/cancel/route.ts`);
the optional `reason` only decorates the success message. -/
def cancelJourney (data : FleetData) (journeyId : String) (nowIso : String)
    (writeOk : Bool) : ApiResult :=
  if journeyId = "" then
    { status := 400, error := some ("Journey ID is required"), persisted := data }
  else
    match data.journeys.find? (fun j => j.id == journeyId) with
    | none => { status := 404, error := some ("Journey not found"), persisted := data }
    | some journey =>
      if journey.status = "completed" then
        { status := 400, error := some ("Cannot cancel a completed journey"), persisted := data }
      else if journey.status = "cancelled" then
        { status := 400, error := some ("Journey is already cancelled"), persisted := data }
      else
        let journeys' := setFirst (fun j => j.id == journeyId)
          (fun _ => { journey with status := "cancelled", endTime := some nowIso })
          data.journeys
        let stats1 :=
          if journey.status = "requested" then
            { data.systemStats with
              pendingRequests := max 0 (data.systemStats.pendingRequests - 1) }
          else data.systemStats
        let stats2 :=
          if journey.status = "in-progress" then
            { stats1 with activeJourneys := max 0 (stats1.activeJourneys - 1) }
          else stats1
        let data' := { data with journeys := journeys', systemStats := stats2 }
        if writeOk then { status := 200, error := none, persisted := data' }
        else { status := 500, error := some ("Failed to cancel journey"), persisted := data }

/-- `POST /api/journeys/dropoff` (`src/app/api/journeys/dropoff/route.ts`). -/
def dropoffJourney (data : FleetData) (journeyId : String) (nowIso : String)
    (writeOk : Bool) : ApiResult :=
  if journeyId = "" then
    { status := 400, error := some ("Journey ID is required"), persisted := data }
  else
    match data.journeys.find? (fun j => j.id == journeyId) with
    | none => { status := 404, error := some ("Journey not found"), persisted := data }
    | some journey =>
      if journey.status ≠ "in-progress" then
        { status := 400, error := some ("Drop-off can only be requested for journeys in progress"),
          persisted := data }
      else
        let journeys' := setFirst (fun j => j.id == journeyId)
          (fun _ => { journey with status := "completed", endTime := some nowIso })
          data.journeys
        let stats' := { data.systemStats with
                        activeJourneys := max 0 (data.systemStats.activeJourneys - 1) }
        let data' := { data with journeys := journeys', systemStats := stats' }
        if writeOk then { status := 200, error := none, persisted := data' }
        else { status := 500, error := some ("Failed to request drop-off"), persisted := data }

/-- `POST /api/journeys/route-change` (`src/app/api/journeys/route-change/route.ts`).
`...(journey.routeChanges || [])` is `journey.routeChanges` here: the field
is a list and `[] || []` is `[]`. -/
def routeChange (data : FleetData) (journeyId newWaypoint : String)
    (reason : Option String) (nowIso : String) (writeOk : Bool) : ApiResult :=
  if journeyId = "" ∨ newWaypoint = "" then
    { status := 400, error := some ("Journey ID and new waypoint are required"), persisted := data }
  else
    match data.journeys.find? (fun j => j.id == journeyId) with
    | none => { status := 404, error := some ("Journey not found"), persisted := data }
    | some journey =>
      if journey.status ≠ "in-progress" then
        { status := 400,
          error := some ("Route changes can only be requested for journeys in progress"),
          persisted := data }
      else
        let newWaypointLocation : Location := { lat := 0, lng := 0, address := newWaypoint }
        let updatedJourney : Journey :=
          { journey with
            waypoints := journey.waypoints ++ [newWaypointLocation],
            routeChanges := journey.routeChanges ++
              [{ type := "waypoint_added", timestamp := nowIso,
                 waypoint := some newWaypointLocation, reason := reason }] }
        let journeys' := setFirst (fun j => j.id == journeyId)
          (fun _ => updatedJourney) data.journeys
        let data' := { data with journeys := journeys' }
        if writeOk then { status := 200, error := none, persisted := data' }
        else { status := 500, error := some ("Failed to request route change"), persisted := data }

/-- `User` as returned by `GET /api/data`: every field except `password`. -/
structure SanitizedUser where
  id : String
  email : String
  name : String
  role : String
  isActive : Bool
  designation : String
  department : String
  currentLocation : Option Location
  carsUsed : List String
  totalDistance : DistanceMetrics
deriving Repr, DecidableEq

/-- `Driver` as returned by `GET /api/data`: every field except `password`. -/
structure SanitizedDriver where
  id : String
  email : String
  name : String
  role : String
  isActive : Bool
  dob : String
  licenseNo : String
  licenseExpiry : String
  onLeave : Bool
  salary : Int
  totalLeave : Int
  remainingLeave : Int
  currentLocation : Location
  totalTravelledDistance : DistanceMetrics
deriving Repr, DecidableEq

/-- The object destructuring `({ password, ...user }) => user`. -/
def sanitizeUser (u : User) : SanitizedUser :=
  { id := u.id, email := u.email, name := u.name, role := u.role,
    isActive := u.isActive, designation := u.designation,
    department := u.department, currentLocation := u.currentLocation,
    carsUsed := u.carsUsed, totalDistance := u.totalDistance }

/-- The object destructuring `({ password, ...driver }) => driver`. -/
def sanitizeDriver (d : Driver) : SanitizedDriver :=
  { id := d.id, email := d.email, name := d.name, role := d.role,
    isActive := d.isActive, dob := d.dob, licenseNo := d.licenseNo,
    licenseExpiry := d.licenseExpiry, onLeave := d.onLeave,
    salary := d.salary, totalLeave := d.totalLeave,
    remainingLeave := d.remainingLeave, currentLocation := d.currentLocation,
    totalTravelledDistance := d.totalTravelledDistance }

/-- Payload of a successful `GET /api/data` response. -/
structure SanitizedFleetData where
  users : List SanitizedUser
  drivers : List SanitizedDriver
  cars : List Car
  locations : List Location
  journeys : List Journey
  leaveRequests : List LeaveRequest
  systemStats : SystemStats
deriving Repr, DecidableEq

/-- `GET /api/data` (`src/app/api/data/route.ts`): the `sanitizedData` object
spread, with passwords stripped from `users` and `drivers`. -/
def getData (data : FleetData) : SanitizedFleetData :=
  { users := data.users.map sanitizeUser,
    drivers := data.drivers.map sanitizeDriver,
    cars := data.cars, locations := data.locations,
    journeys := data.journeys, leaveRequests := data.leaveRequests,
    systemStats := data.systemStats }

/-- The journey-lifecycle mutating endpoints, as one operation type. -/
inductive JourneyOp where
  | request (userId destination : String) (startLocation : Option Location)
      (nowMs : Nat) (nowIso : String)
  | assign (journeyId carId driverId : String)
  | cancel (journeyId : String) (nowIso : String)
  | dropoff (journeyId : String) (nowIso : String)
  | reroute (journeyId newWaypoint : String) (reason : Option String) (nowIso : String)
deriving Repr, DecidableEq

/-- Dispatch of `JourneyOp` to the corresponding handler. -/
def applyOp (data : FleetData) (op : JourneyOp) (writeOk : Bool) : ApiResult :=
  match op with
  | .request userId destination startLocation nowMs nowIso =>
      journeyRequest data userId destination startLocation nowMs nowIso writeOk
  | .assign journeyId carId driverId => assignJourney data journeyId carId driverId writeOk
  | .cancel journeyId nowIso => cancelJourney data journeyId nowIso writeOk
  | .dropoff journeyId nowIso => dropoffJourney data journeyId nowIso writeOk
  | .reroute journeyId newWaypoint reason nowIso =>
      routeChange data journeyId newWaypoint reason nowIso writeOk

/-- Position of a status along `requested → in-progress → {completed|cancelled}`;
strings outside the enum share the terminal rank, which only strengthens the
forward-only theorem. -/
def statusRank (s : String) : Nat :=
  if s == "requested" then 0 else if s == "in-progress" then 1 else 2

/-- The §4.3 stats invariant for the one field the claims track:
`systemStats.pendingRequests` equals the live count of `requested` journeys. -/
def statsConsistent (data : FleetData) : Prop :=
  data.systemStats.pendingRequests =
    Int.ofNat (data.journeys.filter (fun j => j.status == "requested")).length

/-! Concrete sample entities, used to instantiate the theorems below on
closed inputs. -/

def loc0 : Location := { lat := 0, lng := 0, address := "HQ" }

def dm0 : DistanceMetrics := { day := 0, month := 0, year := 0 }

def user1 : User :=
  { id := "u1", email := "u1@fleet.test", password := "pw1", name := "User One",
    role := "user", isActive := true, designation := "Engineer", department := "IT",
    currentLocation := none, carsUsed := [], totalDistance := dm0 }

def user2 : User :=
  { user1 with id := "u2", email := "u2@fleet.test", name := "User Two" }

def driver1 : Driver :=
  { id := "d1", email := "d1@fleet.test", password := "pw2", name := "Driver One",
    role := "driver", isActive := true, dob := "1990-01-01", licenseNo := "L1",
    licenseExpiry := "2030-01-01", onLeave := false, salary := 1000,
    totalLeave := 20, remainingLeave := 20, currentLocation := loc0,
    totalTravelledDistance := dm0 }

def car1 : Car :=
  { id := "c1", model := "Sedan", regNo := "R1", drivers := [], users := [],
    status := "available", isClean := true, needsServicing := false,
    totalDistanceTravelled := dm0, currentLocation := loc0 }

def car2 : Car :=
  { car1 with id := "c2", model := "Van", regNo := "R2", status := "servicing" }

/-- A journey of user `u1` still in status `requested`. -/
def journey1 : Journey :=
  { userDesignation := none, id := "j1", carId := "", driverId := "",
    userId := "u1", userName := "User One", driverName := "", carModel := "",
    startLocation := loc0, endLocation := { lat := 0, lng := 0, address := "Airport" },
    waypoints := [], status := "requested", startTime := "t0", endTime := none,
    distance := 0, rating := none, routeChanges := [], estimatedDuration := 0 }

/-- A journey of user `u2` already `in-progress` on car `c1`, driver `d1`. -/
def journey2 : Journey :=
  { journey1 with
      id := "j2", userId := "u2", userName := "User Two",
      carId := "c1", driverId := "d1", driverName := "Driver One",
      carModel := "Sedan", status := "in-progress" }

/-- A journey of user `u2` already `completed`. -/
def journey3 : Journey :=
  { journey1 with
      id := "j3", userId := "u2", userName := "User Two",
      status := "completed", endTime := some ("t1") }

def stats0 : SystemStats :=
  { totalUsers := 2, totalDrivers := 1, totalCars := 2, activeJourneys := 1,
    pendingRequests := 1, availableCars := 1, driversOnLeave := 0,
    monthlyDistance := 0 }

/-- A stored state whose stats agree with its journeys. -/
def baseData : FleetData :=
  { users := [user1, user2], drivers := [driver1], cars := [car1, car2],
    locations := [loc0], journeys := [journey1, journey2, journey3],
    leaveRequests := [], systemStats := stats0 }

/-! Helper lemmas about `setFirst`. -/

theorem setFirst_length (p : α → Bool) (f : α → α) (l : List α) :
    (setFirst p f l).length = l.length := by
  induction l with
  | nil => rfl
  | cons a as ih => by_cases h : p a <;> simp [setFirst, h, ih]

theorem setFirst_getElem (p : α → Bool) (f : α → α) (l : List α) (i : Nat)
    (h : i < l.length) (h' : i < (setFirst p f l).length) :
    (setFirst p f l)[i] = l[i] ∨
      ((setFirst p f l)[i] = f l[i] ∧ l.find? p = some l[i]) := by
  induction l generalizing i with
  | nil => exact absurd h (Nat.not_lt_zero i)
  | cons a as ih =>
    by_cases hpa : p a
    · cases i with
      | zero =>
        right
        constructor
        · simp [setFirst, hpa]
        · simp [List.find?_cons_of_pos _ hpa]
      | succ n =>
        left
        simp [setFirst, hpa]
    · cases i with
      | zero => left; simp [setFirst, hpa]
      | succ n =>
        have hn : n < as.length := by simpa using h
        have hn' : n < (setFirst p f as).length := by
          rw [setFirst_length]; exact hn
        rcases ih n hn hn' with hc | ⟨hc, hfind⟩
        · left; simpa [setFirst, hpa] using hc
        · right
          constructor
          · simpa [setFirst, hpa] using hc
          · simpa [List.find?_cons_of_neg _ hpa] using hfind

theorem find?_setFirst_self (p : α → Bool) (f : α → α) (l : List α) (x : α)
    (h : l.find? p = some x) (hfx : p (f x) = true) :
    (setFirst p f l).find? p = some (f x) := by
  induction l with
  | nil => simp [List.find?] at h
  | cons a as ih =>
    by_cases hpa : p a
    · have hx : x = a := by
        have := List.find?_cons_of_pos (p := p) as hpa
        rw [this] at h
        exact (Option.some_inj.mp h).symm
      subst hx
      simp [setFirst, hpa, List.find?_cons_of_pos _ hfx]
    · have h' : as.find? p = some x := by
        rwa [List.find?_cons_of_neg _ hpa] at h
      simp [setFirst, hpa, List.find?_cons_of_neg _ hpa, ih h']

theorem countP_setFirst (P Q : α → Bool) (f : α → α) (l : List α) (x : α)
    (h : l.find? Q = some x) :
    (setFirst Q f l).countP P + (if P x then 1 else 0)
      = l.countP P + (if P (f x) then 1 else 0) := by
  induction l with
  | nil => simp [List.find?] at h
  | cons a as ih =>
    by_cases hqa : Q a
    · have hx : x = a := by
        have := List.find?_cons_of_pos (p := Q) as hqa
        rw [this] at h
        exact (Option.some_inj.mp h).symm
      subst hx
      simp only [setFirst, hqa, if_true, List.countP_cons]
      omega
    · have h' : as.find? Q = some x := by
        rwa [List.find?_cons_of_neg _ hqa] at h
      simp only [setFirst, hqa, if_false, List.countP_cons, Bool.false_eq_true]
      have := ih h'
      omega

/-- C1: if the journey exists with status `requested`, the car exists with
status `available` and the driver exists with `onLeave = false` (and the three
ids are present in the request body), the admin assign succeeds and in the
single resulting state the journey carries `carId`, `driverId`, the driver's
name, the car's model and status `in-progress`, while that car has status
`in-use`: both updates happen in the one written state, never separately. -/
theorem assign_success (data : FleetData) (journeyId carId driverId : String)
    (journey : Journey) (car : Car) (driver : Driver)
    (hjid : journeyId ≠ "") (hcid : carId ≠ "") (hdid : driverId ≠ "")
    (hJ : data.journeys.find? (fun j => j.id == journeyId) = some journey)
    (hJs : journey.status = "requested")
    (hC : data.cars.find? (fun c => c.id == carId) = some car)
    (hCs : car.status = "available")
    (hD : data.drivers.find? (fun d => d.id == driverId) = some driver)
    (hDl : driver.onLeave = false) :
    (assignJourney data journeyId carId driverId true).status = 200 ∧
    (assignJourney data journeyId carId driverId true).persisted.journeys.find?
        (fun j => j.id == journeyId) =
      some { journey with
               carId := carId, driverId := driverId,
               driverName := driver.name, carModel := car.model,
               status := "in-progress" } ∧
    (assignJourney data journeyId carId driverId true).persisted.cars.find?
        (fun c => c.id == carId) = some { car with status := "in-use" } := by
  have hpj := List.find?_some hJ
  have hpc := List.find?_some hC
  simp only [assignJourney, hJ, hC, hD, hJs, hCs, hDl]
  simp only [if_neg (show ¬(journeyId = "" ∨ carId = "" ∨ driverId = "") by
    simp [hjid, hcid, hdid])]
  refine ⟨rfl, ?_, ?_⟩
  · exact find?_setFirst_self _ _ _ _ hJ hpj
  · exact find?_setFirst_self _ _ _ _ hC hpc

/-- C1 witness: the generic theorem applied to the concrete `baseData`. -/
theorem assign_success_witness :
    (assignJourney baseData ("j1") ("c1") ("d1") true).status = 200 ∧
    (assignJourney baseData ("j1") ("c1") ("d1") true).persisted.journeys.find?
        (fun j => j.id == ("j1" : String)) =
      some { journey1 with
               carId := "c1", driverId := "d1",
               driverName := driver1.name, carModel := car1.model,
               status := "in-progress" } ∧
    (assignJourney baseData ("j1") ("c1") ("d1") true).persisted.cars.find?
        (fun c => c.id == ("c1" : String)) = some { car1 with status := "in-use" } :=
  assign_success baseData ("j1") ("c1") ("d1") journey1 car1 driver1
    (by decide) (by decide) (by decide) (by decide) rfl (by decide) rfl
    (by decide) rfl

/-- C3: if the journey exists with status `requested` but the target car
exists with a status other than `available`, the assign call fails with
HTTP 400 and body error `Car is not available`, and the stored state is
exactly the starting state, whatever the outcome of the write collaborator
would have been. -/
theorem assign_car_unavailable (data : FleetData) (journeyId carId driverId : String)
    (journey : Journey) (car : Car) (writeOk : Bool)
    (hjid : journeyId ≠ "") (hcid : carId ≠ "") (hdid : driverId ≠ "")
    (hJ : data.journeys.find? (fun j => j.id == journeyId) = some journey)
    (hJs : journey.status = "requested")
    (hC : data.cars.find? (fun c => c.id == carId) = some car)
    (hCs : car.status ≠ "available") :
    (assignJourney data journeyId carId driverId writeOk).status = 400 ∧
    (assignJourney data journeyId carId driverId writeOk).error =
      some ("Car is not available") ∧
    (assignJourney data journeyId carId driverId writeOk).persisted = data := by
  simp only [assignJourney, hJ, hC, hJs]
  simp only [if_neg (show ¬(journeyId = "" ∨ carId = "" ∨ driverId = "") by
    simp [hjid, hcid, hdid])]
  simp [hCs]

/-- C3 witness: assigning the `servicing` car `c2` to the requested journey
`j1` of `baseData` fails with 400 and leaves the state untouched. -/
theorem assign_car_unavailable_witness :
    (assignJourney baseData ("j1") ("c2") ("d1") true).status = 400 ∧
    (assignJourney baseData ("j1") ("c2") ("d1") true).error =
      some ("Car is not available") ∧
    (assignJourney baseData ("j1") ("c2") ("d1") true).persisted = baseData :=
  assign_car_unavailable baseData ("j1") ("c2") ("d1") journey1 car2 true
    (by decide) (by decide) (by decide) rfl rfl rfl (by decide)

/-- C6: a dropoff on an `in-progress` journey succeeds, sets exactly that
journey's status to `completed` and its `endTime` to the current time, and
leaves everything else alone: every other field of the journey, the whole
`cars` list (so the journey's car keeps its `in-use` status — no
auto-release), `drivers`, `users`, `locations`, `leaveRequests`, and every
journey at a position whose id differs from the target. -/
theorem dropoff_frame (data : FleetData) (journeyId nowIso : String)
    (journey : Journey)
    (hjid : journeyId ≠ "")
    (hJ : data.journeys.find? (fun j => j.id == journeyId) = some journey)
    (hJs : journey.status = "in-progress") :
    (dropoffJourney data journeyId nowIso true).status = 200 ∧
    (dropoffJourney data journeyId nowIso true).persisted.journeys.find?
        (fun j => j.id == journeyId) =
      some { journey with status := "completed", endTime := some nowIso } ∧
    (dropoffJourney data journeyId nowIso true).persisted.cars = data.cars ∧
    (dropoffJourney data journeyId nowIso true).persisted.drivers = data.drivers ∧
    (dropoffJourney data journeyId nowIso true).persisted.users = data.users ∧
    (dropoffJourney data journeyId nowIso true).persisted.locations = data.locations ∧
    (dropoffJourney data journeyId nowIso true).persisted.leaveRequests =
      data.leaveRequests ∧
    (dropoffJourney data journeyId nowIso true).persisted.journeys.length =
      data.journeys.length ∧
    (∀ (i : Nat) (h : i < data.journeys.length)
        (h' : i < (dropoffJourney data journeyId nowIso true).persisted.journeys.length),
        (data.journeys[i]).id ≠ journeyId →
        (dropoffJourney data journeyId nowIso true).persisted.journeys[i]
          = data.journeys[i]) := by
  have hpj := List.find?_some hJ
  simp only [dropoffJourney, if_neg hjid, hJ, hJs]
  refine ⟨rfl, ?_, rfl, rfl, rfl, rfl, rfl, ?_, ?_⟩
  · exact find?_setFirst_self _ _ _ _ hJ hpj
  · exact setFirst_length _ _ _
  · intro i h h' hne
    rcases setFirst_getElem _ _ _ i h h' with hc | ⟨hc, hfind⟩
    · exact hc
    · exfalso
      rw [hJ] at hfind
      have hj : journey = data.journeys[i] := Option.some_inj.mp hfind
      rw [hj] at hpj
      exact hne (by simpa using hpj)

/-- C6 witness: dropoff of the in-progress journey `j2` of `baseData`;
position 0 holds the untouched journey `j1`. -/
theorem dropoff_frame_witness :
    (dropoffJourney baseData ("j2") ("t5") true).status = 200 ∧
    (dropoffJourney baseData ("j2") ("t5") true).persisted.journeys.find?
        (fun j => j.id == ("j2" : String)) =
      some { journey2 with status := "completed", endTime := some ("t5") } ∧
    (dropoffJourney baseData ("j2") ("t5") true).persisted.cars = baseData.cars ∧
    (dropoffJourney baseData ("j2") ("t5") true).persisted.journeys.get ⟨0, by decide⟩
      = baseData.journeys.get ⟨0, by decide⟩ :=
  have h := dropoff_frame baseData ("j2") ("t5") journey2 (by decide) rfl rfl
  ⟨h.1, h.2.1, h.2.2.1, h.2.2.2.2.2.2.2.2 0 (by decide) (by decide) (by decide)⟩

/-- C7: for a route-change request whose body carries both fields, on a
journey that exists: if the journey is `in-progress` the call succeeds,
appends exactly one waypoint and exactly one `waypoint_added` route-change
record (keeping the existing entries as a prefix) and leaves the status —
and every other field of the journey — unchanged; if the journey is not
`in-progress` the call fails with HTTP 400 (`InvalidState`) and the stored
state is exactly the starting state. -/
theorem routeChange_spec (data : FleetData) (journeyId newWaypoint : String)
    (reason : Option String) (nowIso : String) (writeOk : Bool) (journey : Journey)
    (hjid : journeyId ≠ "") (hwp : newWaypoint ≠ "")
    (hJ : data.journeys.find? (fun j => j.id == journeyId) = some journey) :
    (journey.status = "in-progress" →
      (routeChange data journeyId newWaypoint reason nowIso true).status = 200 ∧
      (routeChange data journeyId newWaypoint reason nowIso true).persisted.journeys.find?
          (fun j => j.id == journeyId) =
        some { journey with
                 waypoints := journey.waypoints ++
                   [{ lat := 0, lng := 0, address := newWaypoint }],
                 routeChanges := journey.routeChanges ++
                   [{ type := "waypoint_added", timestamp := nowIso,
                      waypoint := some { lat := 0, lng := 0, address := newWaypoint },
                      reason := reason }] }) ∧
    (journey.status ≠ "in-progress" →
      (routeChange data journeyId newWaypoint reason nowIso writeOk).status = 400 ∧
      (routeChange data journeyId newWaypoint reason nowIso writeOk).error =
        some ("Route changes can only be requested for journeys in progress") ∧
      (routeChange data journeyId newWaypoint reason nowIso writeOk).persisted = data) := by
  have hpj := List.find?_some hJ
  constructor
  · intro hs
    simp only [routeChange, hJ, hs]
    simp only [if_neg (show ¬(journeyId = "" ∨ newWaypoint = "") by simp [hjid, hwp])]
    refine ⟨rfl, ?_⟩
    exact find?_setFirst_self _ _ _ _ hJ hpj
  · intro hs
    simp only [routeChange, hJ]
    simp only [if_neg (show ¬(journeyId = "" ∨ newWaypoint = "") by simp [hjid, hwp])]
    simp [hs]

/-- C7 witness: a route change on the in-progress journey `j2` succeeds and
appends one waypoint and one `waypoint_added` record; on the completed
journey `j3` it fails with 400 and does not change the state. -/
theorem routeChange_spec_witness :
    ((routeChange baseData ("j2") ("Mall") none ("t6") true).status = 200 ∧
     (routeChange baseData ("j2") ("Mall") none ("t6") true).persisted.journeys.find?
         (fun j => j.id == ("j2" : String)) =
       some { journey2 with
                waypoints := journey2.waypoints ++
                  [{ lat := 0, lng := 0, address := "Mall" }],
                routeChanges := journey2.routeChanges ++
                  [{ type := "waypoint_added", timestamp := "t6",
                     waypoint := some { lat := 0, lng := 0, address := "Mall" },
                     reason := none }] }) ∧
    ((routeChange baseData ("j3") ("Mall") none ("t6") true).status = 400 ∧
     (routeChange baseData ("j3") ("Mall") none ("t6") true).error =
       some ("Route changes can only be requested for journeys in progress") ∧
     (routeChange baseData ("j3") ("Mall") none ("t6") true).persisted = baseData) :=
  ⟨(routeChange_spec baseData ("j2") ("Mall") none ("t6") true journey2
      (by decide) (by decide) rfl).1 rfl,
   (routeChange_spec baseData ("j3") ("Mall") none ("t6") true journey3
      (by decide) (by decide) rfl).2 (by decide)⟩

/-- C8: the successful `GET /api/data` payload carries every stored entity
unchanged — `cars`, `locations`, `journeys`, `leaveRequests` and
`systemStats` verbatim — while `users` and `drivers` are mapped through the
password-stripping projections, which preserve every field other than
`password`; the result types `SanitizedUser`/`SanitizedDriver` carry no
password field at all. -/
theorem getData_sanitized (data : FleetData) :
    (getData data).cars = data.cars ∧
    (getData data).locations = data.locations ∧
    (getData data).journeys = data.journeys ∧
    (getData data).leaveRequests = data.leaveRequests ∧
    (getData data).systemStats = data.systemStats ∧
    (getData data).users = data.users.map sanitizeUser ∧
    (getData data).drivers = data.drivers.map sanitizeDriver ∧
    (∀ u : User,
      (sanitizeUser u).id = u.id ∧ (sanitizeUser u).email = u.email ∧
      (sanitizeUser u).name = u.name ∧ (sanitizeUser u).role = u.role ∧
      (sanitizeUser u).isActive = u.isActive ∧
      (sanitizeUser u).designation = u.designation ∧
      (sanitizeUser u).department = u.department ∧
      (sanitizeUser u).currentLocation = u.currentLocation ∧
      (sanitizeUser u).carsUsed = u.carsUsed ∧
      (sanitizeUser u).totalDistance = u.totalDistance) ∧
    (∀ d : Driver,
      (sanitizeDriver d).id = d.id ∧ (sanitizeDriver d).email = d.email ∧
      (sanitizeDriver d).name = d.name ∧ (sanitizeDriver d).role = d.role ∧
      (sanitizeDriver d).isActive = d.isActive ∧
      (sanitizeDriver d).dob = d.dob ∧
      (sanitizeDriver d).licenseNo = d.licenseNo ∧
      (sanitizeDriver d).licenseExpiry = d.licenseExpiry ∧
      (sanitizeDriver d).onLeave = d.onLeave ∧
      (sanitizeDriver d).salary = d.salary ∧
      (sanitizeDriver d).totalLeave = d.totalLeave ∧
      (sanitizeDriver d).remainingLeave = d.remainingLeave ∧
      (sanitizeDriver d).currentLocation = d.currentLocation ∧
      (sanitizeDriver d).totalTravelledDistance = d.totalTravelledDistance) := by
  refine ⟨rfl, rfl, rfl, rfl, rfl, rfl, rfl, ?_, ?_⟩
  · intro u
    exact ⟨rfl, rfl, rfl, rfl, rfl, rfl, rfl, rfl, rfl, rfl⟩
  · intro d
    exact ⟨rfl, rfl, rfl, rfl, rfl, rfl, rfl, rfl, rfl, rfl, rfl, rfl, rfl, rfl⟩

/-! Every handler either reaches its single final `writeData` call with
status 200 or returns leaving the stored state untouched. -/

theorem assignJourney_status_or (data : FleetData) (a b c : String) (w : Bool) :
    (assignJourney data a b c w).status = 200 ∨
    (assignJourney data a b c w).persisted = data := by
  unfold assignJourney
  repeat' split
  all_goals simp

theorem journeyRequest_status_or (data : FleetData) (u dest : String)
    (sl : Option Location) (ms : Nat) (iso : String) (w : Bool) :
    (journeyRequest data u dest sl ms iso w).status = 200 ∨
    (journeyRequest data u dest sl ms iso w).persisted = data := by
  unfold journeyRequest
  repeat' split
  all_goals simp

theorem cancelJourney_status_or (data : FleetData) (jid iso : String) (w : Bool) :
    (cancelJourney data jid iso w).status = 200 ∨
    (cancelJourney data jid iso w).persisted = data := by
  unfold cancelJourney
  repeat' split
  all_goals simp

theorem dropoffJourney_status_or (data : FleetData) (jid iso : String) (w : Bool) :
    (dropoffJourney data jid iso w).status = 200 ∨
    (dropoffJourney data jid iso w).persisted = data := by
  unfold dropoffJourney
  repeat' split
  all_goals simp

theorem routeChange_status_or (data : FleetData) (jid wp : String)
    (reason : Option String) (iso : String) (w : Bool) :
    (routeChange data jid wp reason iso w).status = 200 ∨
    (routeChange data jid wp reason iso w).persisted = data := by
  unfold routeChange
  repeat' split
  all_goals simp

/-- C9: whenever one of the five journey endpoints answers with an error
status 400, 404 or 409, the stored `FleetData` is the unchanged input:
every validation, not-found, conflict and invalid-state check returns
before the handler's single `writeData` call. -/
theorem error_responses_do_not_write (data : FleetData) (op : JourneyOp)
    (writeOk : Bool)
    (h : (applyOp data op writeOk).status = 400 ∨
         (applyOp data op writeOk).status = 404 ∨
         (applyOp data op writeOk).status = 409) :
    (applyOp data op writeOk).persisted = data := by
  have h200 : (applyOp data op writeOk).status ≠ 200 := by
    rcases h with h | h | h <;> simp [h]
  cases op with
  | request u dest sl ms iso =>
    rcases journeyRequest_status_or data u dest sl ms iso writeOk with hc | hc
    · exact absurd hc h200
    · exact hc
  | assign a b c =>
    rcases assignJourney_status_or data a b c writeOk with hc | hc
    · exact absurd hc h200
    · exact hc
  | cancel jid iso =>
    rcases cancelJourney_status_or data jid iso writeOk with hc | hc
    · exact absurd hc h200
    · exact hc
  | dropoff jid iso =>
    rcases dropoffJourney_status_or data jid iso writeOk with hc | hc
    · exact absurd hc h200
    · exact hc
  | reroute jid wp reason iso =>
    rcases routeChange_status_or data jid wp reason iso writeOk with hc | hc
    · exact absurd hc h200
    · exact hc

/-- C9 witness: a cancel of the already-cancelled-free completed journey
`j3` answers 400 and leaves `baseData` stored unchanged. -/
theorem error_responses_do_not_write_witness :
    (applyOp baseData (JourneyOp.cancel ("j3") ("t7")) true).persisted = baseData :=
  error_responses_do_not_write baseData (JourneyOp.cancel ("j3") ("t7")) true
    (Or.inl (by decide))

/-- State without any `requested` journey, first collision party. -/
def collDataA : FleetData := { baseData with journeys := [journey2, journey3] }

/-- A different state (different user, empty journey list), second collision
party. -/
def collDataB : FleetData := { baseData with users := [user2], journeys := [] }

/-- C10: every journey created by the request endpoint has id
`"journey-" ++ toString nowMs` — a function of the millisecond timestamp
alone — and two successful requests handled at the same millisecond (here
`12345`, against distinct states and for distinct users) produce journeys
with the same id. -/
theorem journey_id_from_timestamp (data : FleetData) (userId destination : String)
    (startLoc : Location) (nowMs : Nat) (nowIso : String) (user : User)
    (huid : userId ≠ "") (hdest : destination ≠ "")
    (hU : data.users.find? (fun u => u.id == userId) = some user)
    (hNo : data.journeys.find?
        (fun j => j.userId == userId && j.status == "requested") = none) :
    (∃ jNew,
      (journeyRequest data userId destination (some startLoc) nowMs nowIso
          true).persisted.journeys = data.journeys ++ [jNew] ∧
      jNew.id = "journey-" ++ toString nowMs) ∧
    (((journeyRequest collDataA ("u1") ("Airport") (some loc0) 12345 ("ta")
          true).persisted.journeys.getLast?).map Journey.id =
      ((journeyRequest collDataB ("u2") ("Mall") (some loc0) 12345 ("tb")
          true).persisted.journeys.getLast?).map Journey.id ∧
     ((journeyRequest collDataA ("u1") ("Airport") (some loc0) 12345 ("ta")
          true).persisted.journeys.getLast?).map Journey.id =
       some ("journey-" ++ toString (12345 : Nat))) := by
  constructor
  · simp only [journeyRequest, hU, hNo]
    simp only [if_neg (show ¬(userId = "" ∨ destination = "") by simp [huid, hdest])]
    exact ⟨_, rfl, rfl⟩
  · constructor
    · decide
    · decide

/-- C10 witness: the id formula instantiated on `baseData` for user `u2`
(who has no pending request) at millisecond 777. -/
theorem journey_id_from_timestamp_witness :
    ∃ jNew,
      (journeyRequest baseData ("u2") ("Airport") (some loc0) 777 ("t8")
          true).persisted.journeys = baseData.journeys ++ [jNew] ∧
      jNew.id = "journey-" ++ toString (777 : Nat) :=
  (journey_id_from_timestamp baseData ("u2") ("Airport") loc0 777 ("t8") user2
    (by decide) (by decide) (by decide) (by decide)).1


/-- Appending one matching element to a list with no matches leaves exactly
one match. -/
theorem filter_singleton_append (P : α → Bool) (l : List α) (x : α)
    (hl : ∀ a ∈ l, ¬ P a) (hx : P x = true) :
    (List.filter P (l ++ [x])).length = 1 := by
  rw [List.filter_append, List.filter_eq_nil_iff.mpr hl]
  simp [List.filter, hx]

/-- `baseData` with its `users` registry emptied while journey `j1`
(status `requested`, `userId = "u1"`) is still stored: the spec itself
notes such dangling references are not prevented. -/
def danglingData : FleetData := { baseData with users := [] }

/-- C4 counterexample: in `danglingData` a journey with `userId = "u1"` and
status `requested` exists, yet the request endpoint answers 404
(`User not found`), not 409 `Conflict`: the user-existence check runs
before the duplicate-request check, so the claim as stated fails on a
state whose requested journey has no matching user. -/
theorem journeyRequest_conflict_counterexample :
    (danglingData.journeys.find?
        (fun j => j.userId == ("u1" : String) && j.status == "requested")).isSome
      = true ∧
    (journeyRequest danglingData ("u1") ("Airport") (some loc0) 0 ("t") true).status
      = 404 ∧
    ¬ (journeyRequest danglingData ("u1") ("Airport") (some loc0) 0 ("t") true).status
        = 409 :=
  ⟨by decide, by decide, by decide⟩

/-- C4 (amended): for a well-formed request body whose user exists: if some
journey of that user already has status `requested` the endpoint fails with
409 `Conflict` and the stored state is unchanged (in particular no journey
is added); if no such journey exists it succeeds and appends exactly one
journey with status `requested`, empty `carId` and `driverId`, `endTime`
`null` and the requesting `userId` — after which that user has exactly one
`requested` journey. -/
theorem journeyRequest_conflict (data : FleetData) (userId destination : String)
    (startLoc : Location) (nowMs : Nat) (nowIso : String) (user : User)
    (huid : userId ≠ "") (hdest : destination ≠ "")
    (hU : data.users.find? (fun u => u.id == userId) = some user) :
    (∀ j, data.journeys.find?
        (fun j => j.userId == userId && j.status == "requested") = some j →
      (journeyRequest data userId destination (some startLoc) nowMs nowIso
          true).status = 409 ∧
      (journeyRequest data userId destination (some startLoc) nowMs nowIso
          true).persisted = data) ∧
    (data.journeys.find?
        (fun j => j.userId == userId && j.status == "requested") = none →
      (journeyRequest data userId destination (some startLoc) nowMs nowIso
          true).status = 200 ∧
      (∃ jNew,
        (journeyRequest data userId destination (some startLoc) nowMs nowIso
            true).persisted.journeys = data.journeys ++ [jNew] ∧
        jNew.status = "requested" ∧ jNew.carId = "" ∧ jNew.driverId = "" ∧
        jNew.endTime = none ∧ jNew.userId = userId) ∧
      ((journeyRequest data userId destination (some startLoc) nowMs nowIso
          true).persisted.journeys.filter
            (fun j => j.userId == userId && j.status == "requested")).length = 1) := by
  constructor
  · intro j hj
    simp only [journeyRequest, hU, hj]
    simp only [if_neg (show ¬(userId = "" ∨ destination = "") by simp [huid, hdest])]
    simp
  · intro hNo
    simp only [journeyRequest, hU, hNo]
    simp only [if_neg (show ¬(userId = "" ∨ destination = "") by simp [huid, hdest])]
    refine ⟨?_, ?_, ?_⟩
    · simp
    · exact ⟨_, rfl, rfl, rfl, rfl, rfl, rfl⟩
    · exact filter_singleton_append _ data.journeys _
        (fun a ha => List.find?_eq_none.mp hNo a ha) (by simp)

/-- C4 witness: on `baseData`, user `u1` (who owns the requested `j1`) gets
409 with the state unchanged, and user `u2` (no pending request) gets a
successful creation with exactly one requested journey afterwards. -/
theorem journeyRequest_conflict_witness :
    ((journeyRequest baseData ("u1") ("Airport") (some loc0) 1 ("t") true).status
        = 409 ∧
     (journeyRequest baseData ("u1") ("Airport") (some loc0) 1 ("t") true).persisted
        = baseData) ∧
    ((journeyRequest baseData ("u2") ("Airport") (some loc0) 1 ("t") true).persisted.journeys.filter
        (fun j => j.userId == ("u2" : String) && j.status == "requested")).length = 1 :=
  ⟨(journeyRequest_conflict baseData ("u1") ("Airport") loc0 1 ("t") user1
      (by decide) (by decide) (by decide)).1 journey1 (by decide),
   ((journeyRequest_conflict baseData ("u2") ("Airport") loc0 1 ("t") user2
      (by decide) (by decide) (by decide)).2 (by decide)).2.2⟩

/-! Counting lemmas for the stats recomputation claims. -/

/-- `setFirst` changes the `P`-count of a list only through the first
`Q`-match `x`, by the difference between `P x` and `P (f x)`. -/
theorem length_filter_setFirst (P Q : α → Bool) (f : α → α) (l : List α) (x : α)
    (h : l.find? Q = some x) :
    (List.filter P (setFirst Q f l)).length + (if P x then 1 else 0)
      = (List.filter P l).length + (if P (f x) then 1 else 0) := by
  rw [← List.countP_eq_length_filter, ← List.countP_eq_length_filter]
  exact countP_setFirst P Q f l x h

/-- Replacing the first `Q`-match, a `P`-element, by a non-`P`-element
drops the `P`-count by one. -/
theorem length_filter_setFirst_drop (P Q : α → Bool) (f : α → α) (l : List α) (x : α)
    (h : l.find? Q = some x) (hx : P x = true) (hfx : P (f x) = false) :
    (List.filter P l).length = (List.filter P (setFirst Q f l)).length + 1 := by
  have hc := length_filter_setFirst P Q f l x h
  rw [hx, hfx] at hc
  simpa using hc.symm

/-- Replacing the first `Q`-match without changing its `P`-value keeps the
`P`-count. -/
theorem length_filter_setFirst_keep (P Q : α → Bool) (f : α → α) (l : List α) (x : α)
    (h : l.find? Q = some x) (hx : P x = P (f x)) :
    (List.filter P (setFirst Q f l)).length = (List.filter P l).length := by
  have hc := length_filter_setFirst P Q f l x h
  rw [hx] at hc
  omega

/-- C5 (amended): starting from any state whose `systemStats.pendingRequests`
equals the live count of `requested` journeys, each of the five journey
endpoints — whatever its outcome — leaves a stored state that still
satisfies the invariant. The request, cancel and dropoff handlers maintain
it by incremental `+1` / clamped `-1` updates; only the admin assign
recomputes the counts from the updated arrays. -/
theorem pending_requests_consistent (data : FleetData) (op : JourneyOp) (writeOk : Bool)
    (h : statsConsistent data) : statsConsistent (applyOp data op writeOk).persisted := by
  cases op with
  | request u dest sl ms iso =>
    simp only [applyOp]
    unfold journeyRequest
    repeat' split
    any_goals exact h
    unfold statsConsistent at h ⊢
    simp only [List.filter_append, List.length_append, Int.ofNat_eq_natCast] at h ⊢
    simp [List.filter]
    omega
  | assign a b c =>
    simp only [applyOp]
    unfold assignJourney
    repeat' split
    any_goals exact h
    unfold statsConsistent
    rfl
  | cancel jid iso =>
    simp only [applyOp]
    unfold cancelJourney
    repeat' split
    any_goals exact h
    · rename_i x journey heq hcomp hcanc hreq hip hw
      rw [hreq] at hip
      exact absurd hip (by decide)
    · rename_i x journey heq hcomp hcanc hreq hip hw
      unfold statsConsistent at h ⊢
      simp only [Int.ofNat_eq_natCast] at h ⊢
      have hout := length_filter_setFirst_drop (fun j => j.status == "requested")
        (fun j => j.id == jid)
        (fun _ => { journey with status := "cancelled", endTime := some iso })
        data.journeys journey heq (by simp [hreq]) (by rfl)
      omega
    · rename_i x journey heq hcomp hcanc hreq hip hw
      unfold statsConsistent at h ⊢
      simp only [Int.ofNat_eq_natCast] at h ⊢
      have hkeep := length_filter_setFirst_keep (fun j => j.status == "requested")
        (fun j => j.id == jid)
        (fun _ => { journey with status := "cancelled", endTime := some iso })
        data.journeys journey heq (by simp [hreq])
      omega
    · rename_i x journey heq hcomp hcanc hreq hip hw
      unfold statsConsistent at h ⊢
      simp only [Int.ofNat_eq_natCast] at h ⊢
      have hkeep := length_filter_setFirst_keep (fun j => j.status == "requested")
        (fun j => j.id == jid)
        (fun _ => { journey with status := "cancelled", endTime := some iso })
        data.journeys journey heq (by simp [hreq])
      omega
  | dropoff jid iso =>
    simp only [applyOp]
    unfold dropoffJourney
    repeat' split
    any_goals exact h
    rename_i x journey heq hnip hw
    have hs : journey.status = "in-progress" := not_not.mp hnip
    unfold statsConsistent at h ⊢
    simp only [Int.ofNat_eq_natCast] at h ⊢
    have hkeep := length_filter_setFirst_keep (fun j => j.status == "requested")
      (fun j => j.id == jid)
      (fun _ => { journey with status := "completed", endTime := some iso })
      data.journeys journey heq (by simp [hs])
    omega
  | reroute jid wp reason iso =>
    simp only [applyOp]
    unfold routeChange
    repeat' split
    any_goals exact h
    rename_i x journey heq hnip hw
    unfold statsConsistent at h ⊢
    simp only [Int.ofNat_eq_natCast] at h ⊢
    have hkeep := length_filter_setFirst_keep (fun j => j.status == "requested")
      (fun j => j.id == jid)
      (fun _ => { journey with
                    waypoints := journey.waypoints ++
                      [{ lat := 0, lng := 0, address := wp }],
                    routeChanges := journey.routeChanges ++
                      [{ type := "waypoint_added", timestamp := iso,
                         waypoint := some { lat := 0, lng := 0, address := wp },
                         reason := reason }] })
      data.journeys journey heq (by rfl)
    omega

/-- `baseData` with no journeys but a stale `pendingRequests = 5`. -/
def skewedData : FleetData :=
  { baseData with
      journeys := [],
      systemStats := { stats0 with pendingRequests := 5 } }

/-- C5 counterexample: after a successful journey request against
`skewedData`, `pendingRequests` is 6 while the live count of `requested`
journeys is 1 — the handler increments the stored counter instead of
recomputing it, so "stats are recomputed fully after every relevant
mutation" fails as soon as the starting counter is stale. -/
theorem stats_not_recomputed_counterexample :
    (journeyRequest skewedData ("u1") ("Airport") (some loc0) 2 ("t") true).status
      = 200 ∧
    (journeyRequest skewedData ("u1") ("Airport") (some loc0) 2 ("t")
        true).persisted.systemStats.pendingRequests = 6 ∧
    Int.ofNat ((journeyRequest skewedData ("u1") ("Airport") (some loc0) 2 ("t")
        true).persisted.journeys.filter (fun j => j.status == "requested")).length = 1 ∧
    ¬ statsConsistent
        (journeyRequest skewedData ("u1") ("Airport") (some loc0) 2 ("t")
          true).persisted :=
  ⟨by decide, by decide, by decide, by unfold statsConsistent; decide⟩

/-- C5 witness: the invariant carried from the consistent `baseData` through
a successful dropoff of journey `j2`. -/
theorem pending_requests_consistent_witness :
    statsConsistent
      (applyOp baseData (JourneyOp.dropoff ("j2") ("t9")) true).persisted :=
  pending_requests_consistent baseData (JourneyOp.dropoff ("j2") ("t9")) true
    (by unfold statsConsistent; decide)

/-- Positionwise forward movement of journey statuses: every journey present
in the old list moves weakly up `statusRank`, and a terminal (`completed` or
`cancelled`) journey is untouched. -/
def journeysForward (old new : List Journey) : Prop :=
  ∀ (i : Nat) (h : i < old.length) (h' : i < new.length),
    statusRank (old[i]).status ≤ statusRank (new[i]).status ∧
    ((old[i]).status = "completed" ∨ (old[i]).status = "cancelled" →
      new[i] = old[i])

theorem journeysForward_refl (l : List Journey) : journeysForward l l :=
  fun _ _ _ => ⟨le_refl _, fun _ => rfl⟩

theorem journeysForward_append (l l₂ : List Journey) :
    journeysForward l (l ++ l₂) := by
  intro i h h'
  rw [List.getElem_append_left h]
  exact ⟨le_refl _, fun _ => rfl⟩

theorem statusRank_le_two (s : String) : statusRank s ≤ 2 := by
  unfold statusRank
  repeat' split
  all_goals omega

/-- Replacing the first `Q`-match, known non-terminal and rank-increasing
under `f`, is a forward move. -/
theorem journeysForward_setFirst (Q : Journey → Bool) (f : Journey → Journey)
    (l : List Journey) (x : Journey)
    (hfind : l.find? Q = some x)
    (hrank : statusRank x.status ≤ statusRank (f x).status)
    (hnc : x.status ≠ "completed") (hncl : x.status ≠ "cancelled") :
    journeysForward l (setFirst Q f l) := by
  intro i h h'
  rcases setFirst_getElem Q f l i h h' with hc | ⟨hc, hfx⟩
  · rw [hc]
    exact ⟨le_refl _, fun _ => rfl⟩
  · rw [hfind] at hfx
    have hx : x = l[i] := Option.some_inj.mp hfx
    constructor
    · rw [hc, ← hx]
      exact hrank
    · intro hterm
      exfalso
      rcases hterm with ht | ht
      · rw [← hx] at ht; exact hnc ht
      · rw [← hx] at ht; exact hncl ht

/-- C2: journey statuses only move forward. For every starting state and
every endpoint call (any of the five operations, any write outcome), the
resulting journey list moves positionwise weakly up
`requested → in-progress → terminal` and leaves every `completed` or
`cancelled` journey untouched; moreover a cancel aimed at a journey that is
already `completed` or `cancelled` answers 400 leaving the state unchanged,
and a dropoff aimed at a journey that is not `in-progress` answers 400
leaving the state unchanged. -/
theorem journey_status_forward (data : FleetData) (op : JourneyOp) (writeOk : Bool) :
    journeysForward data.journeys (applyOp data op writeOk).persisted.journeys ∧
    (∀ (journeyId nowIso : String) (journey : Journey),
        data.journeys.find? (fun j => j.id == journeyId) = some journey →
        (journey.status = "completed" ∨ journey.status = "cancelled") →
        (cancelJourney data journeyId nowIso writeOk).status = 400 ∧
        (cancelJourney data journeyId nowIso writeOk).persisted = data) ∧
    (∀ (journeyId nowIso : String) (journey : Journey),
        data.journeys.find? (fun j => j.id == journeyId) = some journey →
        journey.status ≠ "in-progress" →
        (dropoffJourney data journeyId nowIso writeOk).status = 400 ∧
        (dropoffJourney data journeyId nowIso writeOk).persisted = data) := by
  refine ⟨?_, ?_, ?_⟩
  · cases op with
    | request u dest sl ms iso =>
      simp only [applyOp]
      unfold journeyRequest
      repeat' split
      any_goals exact journeysForward_refl _
      exact journeysForward_append _ _
    | assign a b c =>
      simp only [applyOp]
      unfold assignJourney
      repeat' split
      any_goals exact journeysForward_refl _
      rename_i x journey heq hreq xc car hcar hcs xd driver hdrv hleave hw
      exact journeysForward_setFirst _ _ _ _ heq
        (by rw [not_not.mp hreq]; exact Nat.zero_le _)
        (by rw [not_not.mp hreq]; decide)
        (by rw [not_not.mp hreq]; decide)
    | cancel jid iso =>
      simp only [applyOp]
      unfold cancelJourney
      repeat' split
      any_goals exact journeysForward_refl _
      all_goals
        rename_i x journey heq hcomp hcanc hreq hip hw
        exact journeysForward_setFirst _ _ _ _ heq
          (statusRank_le_two _) hcomp hcanc
    | dropoff jid iso =>
      simp only [applyOp]
      unfold dropoffJourney
      repeat' split
      any_goals exact journeysForward_refl _
      rename_i x journey heq hnip hw
      exact journeysForward_setFirst _ _ _ _ heq
        (statusRank_le_two _)
        (by rw [not_not.mp hnip]; decide)
        (by rw [not_not.mp hnip]; decide)
    | reroute jid wp reason iso =>
      simp only [applyOp]
      unfold routeChange
      repeat' split
      any_goals exact journeysForward_refl _
      rename_i x journey heq hnip hw
      exact journeysForward_setFirst _ _ _ _ heq
        (le_refl _)
        (by rw [not_not.mp hnip]; decide)
        (by rw [not_not.mp hnip]; decide)
  · intro journeyId nowIso journey hfind hterm
    by_cases hjid : journeyId = ""
    · unfold cancelJourney
      rw [if_pos hjid]
      exact ⟨rfl, rfl⟩
    · unfold cancelJourney
      rw [if_neg hjid]
      rcases hterm with hc | hc
      · simp [hfind, hc]
      · simp [hfind, hc]
  · intro journeyId nowIso journey hfind hnip
    by_cases hjid : journeyId = ""
    · unfold dropoffJourney
      rw [if_pos hjid]
      exact ⟨rfl, rfl⟩
    · unfold dropoffJourney
      rw [if_neg hjid]
      simp [hfind, hnip]

/-- C2 witness: on `baseData`, cancelling the completed `j3` gives 400 and
no change, dropoff on the merely requested `j1` gives 400 and no change,
and position 2 (journey `j3`) keeps its rank under the attempted cancel. -/
theorem journey_status_forward_witness :
    ((cancelJourney baseData ("j3") ("tw") true).status = 400 ∧
     (cancelJourney baseData ("j3") ("tw") true).persisted = baseData) ∧
    ((dropoffJourney baseData ("j1") ("tw") true).status = 400 ∧
     (dropoffJourney baseData ("j1") ("tw") true).persisted = baseData) ∧
    statusRank (baseData.journeys.get ⟨2, by decide⟩).status ≤
      statusRank (((applyOp baseData (JourneyOp.cancel ("j3") ("tw"))
          true).persisted.journeys).get ⟨2, by decide⟩).status :=
  have hfwd := journey_status_forward baseData (JourneyOp.cancel ("j3") ("tw")) true
  ⟨hfwd.2.1 ("j3") ("tw") journey3 (by decide) (Or.inl (by decide)),
   hfwd.2.2 ("j1") ("tw") journey1 (by decide) (by decide),
   by
     have h1 := (hfwd.1 2 (by decide) (by decide)).1
     simpa using h1⟩
